import Mathlib

/-!
Verification development for the Wain render queue manager.

Part A embeds the splash-screen launcher code that ships in the repository
(src/wain_launcher.pyw and the launcher variant in src/unnamed/part_004) as
pure Lean functions over explicit state.

Part B models the job queue / scheduler core and the engine adapters.  The
package wain/ (app.py, models.py, engines/) is not part of the shipped
sources, so those definitions are modelled from the specification, as noted
in their doc comments.
-/

namespace RenderManager

/-! ### Part A: launcher code embedded from the source -/

/-- Embeds find_wain_window from src/unnamed/part_004 (lines 26 to 34).
The Python function returns False when sys.platform is not win32, returns
the boolean hwnd != 0 when FindWindowW returns a handle, and returns False
when the call raises.  The environment is explicit: platform is the value
of sys.platform, apiResult is some hwnd on a normal return of FindWindowW
and none when the call raises. -/
def find_wain_window (platform : String) (apiResult : Option Int) : Bool :=
  if platform ≠ "win32" then
    false
  else
    match apiResult with
    | none => false
    | some hwnd => hwnd != 0

/-- State touched by launch_app in src/wain_launcher.pyw: the
splash.app_launched flag, plus a count of subprocess.Popen spawns so the
at-most-once property can be stated. -/
structure LaunchState where
  appLaunched : Bool
  spawnCount : Nat
deriving DecidableEq, Repr

/-- Embeds launch_app from src/wain_launcher.pyw (lines 309 to 341): if the
app_launched flag is set the call returns immediately; otherwise the flag is
set first and then the subprocess is spawned (exactly one Popen in the body,
counted here by spawnCount). -/
def launch_app (s : LaunchState) : LaunchState :=
  if s.appLaunched then s
  else { appLaunched := true, spawnCount := s.spawnCount + 1 }

/-- n successive invocations of launch_app. -/
def launchIter : Nat → LaunchState → LaunchState
  | 0, s => s
  | n + 1, s => launchIter n (launch_app s)

/-- The launcher state at splash creation: flag clear, nothing spawned
(splash.app_launched = False in create_splash). -/
def initialLaunchState : LaunchState := { appLaunched := false, spawnCount := 0 }

/-- State read by simulate_progress in src/wain_launcher.pyw: whether the
splash window still exists, the app_detected flag, the animated progress
value, the current target_progress, and the elapsed seconds since
splash.start_time.  Python floats are modelled as rationals. -/
structure SplashState where
  winfoExists : Bool
  appDetected : Bool
  progress : ℚ
  targetProgress : ℚ
  elapsed : ℚ
deriving DecidableEq, Repr

/-- The effect of one simulate_progress invocation beyond the target update:
return with no action (window gone), schedule splash.destroy after a delay,
destroy the window immediately, or schedule the next simulate_progress
after a delay. -/
inductive SplashAction where
  | noAction
  | scheduleDestroy (delayMs : Nat)
  | destroyNow
  | scheduleNext (delayMs : Nat)
deriving DecidableEq, Repr

/-- The target_progress value simulate_progress computes before its
safety-timeout check: 100 when the app was detected, otherwise the staged
table on elapsed time (thresholds 0.5, 1, 2, 3.5, 5, 7, 10 seconds, then a
slow crawl capped at 95). -/
def simulateTarget (s : SplashState) : ℚ :=
  if s.appDetected then 100
  else if s.elapsed < 1 / 2 then 10
  else if s.elapsed < 1 then 25
  else if s.elapsed < 2 then 40
  else if s.elapsed < 7 / 2 then 55
  else if s.elapsed < 5 then 70
  else if s.elapsed < 7 then 82
  else if s.elapsed < 10 then 90
  else min 95 (90 + (s.elapsed - 10) / 2)

/-- Embeds simulate_progress from src/wain_launcher.pyw (lines 241 to 279).
Returns the new target_progress and the single control action the
invocation takes: an early return when the window no longer exists; in the
app_detected branch with progress at least 99, schedule destroy after
300 ms and return; otherwise fall through to the 25 second safety-timeout
check (destroy immediately when elapsed exceeds 25) and, when it does not
fire, schedule the next invocation after 100 ms. -/
def simulate_progress (s : SplashState) : ℚ × SplashAction :=
  if s.winfoExists = false then
    (s.targetProgress, SplashAction.noAction)
  else if s.appDetected ∧ 99 ≤ s.progress then
    (simulateTarget s, SplashAction.scheduleDestroy 300)
  else if 25 < s.elapsed then
    (simulateTarget s, SplashAction.destroyNow)
  else
    (simulateTarget s, SplashAction.scheduleNext 100)

/-! ### Part B: job queue and scheduler, modelled from the specification -/

/-- Modelled from the spec: the job status enum of section 4.7 of the
specification (wain/models.py is not among the shipped sources).  The
Deleted pseudo-state is represented by removal from the job list. -/
inductive Status where
  | queued
  | rendering
  | completed
  | failed
  | paused
deriving DecidableEq, Repr

/-- True exactly on the rendering status. -/
def Status.isRendering : Status → Bool
  | Status.rendering => true
  | _ => false

/-- Modelled from the spec: the RenderJob record of section 3 of the
specification (wain/models.py is not among the shipped sources), restricted
to the fields the verified properties touch: identity, priority, submission
order, status, persisted progress percent, resume cursor, completed render
units of the scripted engine, and the error message. -/
structure Job where
  id : Nat
  priority : Nat
  order : Nat
  status : Status
  totalProgress : Nat
  currentFrame : Nat
  unitsCompleted : Nat
  errorMessage : String
deriving DecidableEq, Repr

/-- Number of jobs whose status is Rendering. -/
def countRendering (s : List Job) : Nat :=
  (s.filter (fun j => j.status.isRendering)).length

/-- Replace the element at index i by f applied to it; out-of-range
indices leave the list unchanged. -/
def updateAt : List Job → Nat → (Job → Job) → List Job
  | [], _, _ => []
  | j :: rest, 0, f => f j :: rest
  | j :: rest, n + 1, f => j :: updateAt rest n f

/-- Remove the element at index i; out-of-range indices leave the list
unchanged. -/
def removeAt : List Job → Nat → List Job
  | [], _ => []
  | _ :: rest, 0 => rest
  | j :: rest, n + 1 => j :: removeAt rest n

/-- Modelled from the spec: the job submission contract of section 6
(scene path and similar fields that the verified properties never read are
omitted).  The submit-paused flag decides whether the new job enters the
queue Paused instead of Queued. -/
structure SubmitRequest where
  id : Nat
  priority : Nat
  currentFrame : Nat
  submitPaused : Bool
deriving DecidableEq, Repr

/-- Modelled from the spec: job submission (section 4.7 with section 6 of
the specification; wain/app.py is not among the shipped sources).  A new
job is appended with status Queued, or Paused for a submit-paused request;
a submitted job is never Rendering. -/
def submitOp (s : List Job) (r : SubmitRequest) : List Job :=
  s ++ [{ id := r.id, priority := r.priority, order := s.length,
          status := if r.submitPaused then Status.paused else Status.queued,
          totalProgress := 0, currentFrame := r.currentFrame,
          unitsCompleted := 0, errorMessage := "" }]

/-- Modelled from the spec: the user start command on a Queued or Paused
job (section 4.7 of the specification; wain/app.py is not among the shipped
sources).  The scheduler enforces at-most-one-active-job concurrency by
construction, so the command only takes effect while no job is active. -/
def startOp (s : List Job) (i : Nat) : List Job :=
  if countRendering s = 0 then
    updateAt s i (fun j =>
      if j.status = Status.queued ∨ j.status = Status.paused then
        { j with status := Status.rendering }
      else j)
  else s

/-- Modelled from the spec: the pause command (section 4.7 of the
specification); a Rendering job becomes Paused, other states are left
alone. -/
def pauseOp (s : List Job) (i : Nat) : List Job :=
  updateAt s i (fun j =>
    if j.status = Status.rendering then { j with status := Status.paused } else j)

/-- Modelled from the spec: the resume command (section 4.7 of the
specification): Paused to Rendering, applied by the scheduler only while no
job is active, preserving at-most-one-active-job concurrency. -/
def resumeOp (s : List Job) (i : Nat) : List Job :=
  if countRendering s = 0 then
    updateAt s i (fun j =>
      if j.status = Status.paused then { j with status := Status.rendering } else j)
  else s

/-- Modelled from the spec: the stop command (sections 4.2 and 4.7 of the
specification): a hard cancel of the active render; the job record leaves
the Rendering state keeping its resume cursor. -/
def stopOp (s : List Job) (i : Nat) : List Job :=
  updateAt s i (fun j =>
    if j.status = Status.rendering then { j with status := Status.paused } else j)

/-- Modelled from the spec: deletion (section 4.7 of the specification):
the job record is removed from the queue. -/
def deleteOp (s : List Job) (i : Nat) : List Job :=
  removeAt s i

/-- Modelled from the spec: retry-from-failure on one job record
(section 4.7 and section 8 of the specification; wain/app.py is not among
the shipped sources): a Failed job goes back to Queued with its error
message cleared and every other field, in particular the resume cursor
current_frame and units_completed, untouched. -/
def retryJob (j : Job) : Job :=
  if j.status = Status.failed then
    { j with status := Status.queued, errorMessage := "" }
  else j

/-- Modelled from the spec: the retry command applied at index i. -/
def retryOp (s : List Job) (i : Nat) : List Job :=
  updateAt s i retryJob

/-- Modelled from the spec: what one adapter poll reports to the scheduler
tick: still running with a raw total_progress value (possibly out of
range), finished, or failed with a message. -/
inductive AdapterOutcome where
  | running (reported : Int)
  | finished
  | faulted (msg : String)
deriving DecidableEq, Repr

/-- Modelled from the spec: defensive clamping of an adapter-reported
total_progress into the range 0 to 100 (sections 4.1 and 5 of the
specification). -/
def clampProgress (reported : Int) : Nat :=
  (min 100 (max 0 reported)).toNat

/-- Modelled from the spec: the persisted total_progress update rule of
section 5 of the specification: the clamped report is persisted only when
it does not move the value backwards; a smaller report is ignored. -/
def persistProgress (old : Nat) (reported : Int) : Nat :=
  max old (clampProgress reported)

/-- Modelled from the spec: how a scheduler tick folds one adapter poll
into the active job record: progress is clamped and kept monotone while
running; a finished render completes the job; a fault fails it with the
reported message. -/
def applyOutcome (o : AdapterOutcome) (j : Job) : Job :=
  match o with
  | AdapterOutcome.running reported =>
      { j with totalProgress := persistProgress j.totalProgress reported }
  | AdapterOutcome.finished => { j with status := Status.completed }
  | AdapterOutcome.faulted msg =>
      { j with status := Status.failed, errorMessage := msg }

/-- Apply the adapter outcome to the first Rendering job of the list. -/
def tickActive : List Job → AdapterOutcome → List Job
  | [], _ => []
  | j :: rest, o =>
      if j.status.isRendering then applyOutcome o j :: rest
      else j :: tickActive rest o

/-- Index of the Queued job that is strictly first by priority (lower
first) and then submission order, if any. -/
def nextQueuedAux : List Job → Nat → Option (Nat × Job)
  | [], _ => none
  | j :: rest, i =>
      let restBest := nextQueuedAux rest (i + 1)
      if j.status = Status.queued then
        match restBest with
        | none => some (i, j)
        | some (bi, bj) =>
            if bj.priority < j.priority ∨ (bj.priority = j.priority ∧ bj.order < j.order)
            then some (bi, bj)
            else some (i, j)
      else restBest

/-- Index of the next Queued job by priority then submission order. -/
def nextQueuedIdx (s : List Job) : Option Nat :=
  (nextQueuedAux s 0).map Prod.fst

/-- Modelled from the spec: one scheduler tick (section 4.7 of the
specification; wain/app.py is not among the shipped sources).  While a job
is active the tick folds the adapter poll into it; while none is active it
selects the next Queued job by priority then submission order and makes it
Rendering. -/
def tickOp (s : List Job) (o : AdapterOutcome) : List Job :=
  if countRendering s = 0 then
    match nextQueuedIdx s with
    | some i =>
        updateAt s i (fun j =>
          if j.status = Status.queued then { j with status := Status.rendering } else j)
    | none => s
  else tickActive s o

/-- Modelled from the spec: cold-start demotion of one persisted job record
(section 4.7 of the specification): a job persisted as Rendering is loaded
as Paused, every other job is loaded unchanged. -/
def loadJob (j : Job) : Job :=
  if j.status = Status.rendering then { j with status := Status.paused } else j

/-- Modelled from the spec: loading the whole persisted job list at process
start. -/
def loadJobs (p : List Job) : List Job :=
  p.map loadJob

/-- The states of the job queue reachable from a cold start through the
scheduler operations. -/
inductive Reachable : List Job → Prop where
  | load (p : List Job) : Reachable (loadJobs p)
  | submit (s : List Job) (r : SubmitRequest) : Reachable s → Reachable (submitOp s r)
  | start (s : List Job) (i : Nat) : Reachable s → Reachable (startOp s i)
  | pause (s : List Job) (i : Nat) : Reachable s → Reachable (pauseOp s i)
  | resume (s : List Job) (i : Nat) : Reachable s → Reachable (resumeOp s i)
  | stop (s : List Job) (i : Nat) : Reachable s → Reachable (stopOp s i)
  | delete (s : List Job) (i : Nat) : Reachable s → Reachable (deleteOp s i)
  | retry (s : List Job) (i : Nat) : Reachable s → Reachable (retryOp s i)
  | tick (s : List Job) (o : AdapterOutcome) : Reachable s → Reachable (tickOp s o)

/-! ### Part C: adapter internals modelled from the specification -/

/-- The fatal message of an exhausted control search (section 4.5 of the
specification). -/
def controlNotFoundMsg : String := "render control not found"

/-- Modelled from the spec: the budgets of the supervised automation
control search (section 4.5 of the specification; the automation adapter is
not among the shipped sources): a fixed number of attempts, a per-search
await deadline, and an overall wall-clock deadline, all in milliseconds of
model time. -/
structure SearchPolicy where
  attemptBudget : Nat
  perAttemptDeadline : Nat
  wallClockDeadline : Nat
deriving DecidableEq, Repr

/-- Result of the supervised control search: the control was found, or the
search failed fatally; both carry the elapsed model time. -/
inductive SearchResult where
  | found (elapsed : Nat)
  | fatal (msg : String) (elapsed : Nat)
deriving DecidableEq, Repr

/-- Elapsed model time of a search result. -/
def SearchResult.elapsedOf : SearchResult → Nat
  | SearchResult.found e => e
  | SearchResult.fatal _ e => e

/-- Modelled from the spec: the retry loop of AwaitingStartControl
(section 4.5 of the specification).  Each attempt submits the underlying
control-tree search (which may block for dur i, unbounded) to a one-shot
worker and awaits it with an explicit deadline, so the scheduler observes
at most perAttemptDeadline of wall time per attempt and abandons the worker
on expiry; an attempt succeeds only when the search both finds the control
and returns within the deadline.  The loop stops fatally when the overall
wall-clock deadline has been reached or the attempt budget is spent. -/
def searchLoop (find : Nat → Bool) (dur : Nat → Nat) (pol : SearchPolicy) :
    Nat → Nat → Nat → SearchResult
  | 0, elapsed, _ => SearchResult.fatal controlNotFoundMsg elapsed
  | fuel + 1, elapsed, i =>
      if pol.wallClockDeadline ≤ elapsed then
        SearchResult.fatal controlNotFoundMsg elapsed
      else if find i && decide (dur i ≤ pol.perAttemptDeadline) then
        SearchResult.found (elapsed + min (dur i) pol.perAttemptDeadline)
      else
        searchLoop find dur pol fuel (elapsed + min (dur i) pol.perAttemptDeadline) (i + 1)

/-- Modelled from the spec: the whole supervised control search, starting
with the full attempt budget at time zero. -/
def controlSearch (find : Nat → Bool) (dur : Nat → Nat) (pol : SearchPolicy) : SearchResult :=
  searchLoop find dur pol pol.attemptBudget 0 0

/-- Modelled from the spec: how the scheduler folds a search result into
the job record: a fatal search result fails the job with its message, a
found control leaves the job alone. -/
def searchFailJob (j : Job) (res : SearchResult) : Job :=
  match res with
  | SearchResult.fatal msg _ => { j with status := Status.failed, errorMessage := msg }
  | SearchResult.found _ => j

/-- Modelled from the spec: the failure taxonomy of section 7 of the
specification. -/
inductive FailureCategory where
  | transient
  | fatalInput
  | fatalEnvironment
  | externalStateRisk
deriving DecidableEq, Repr

/-- Outcome record of one guarded write to the persistent configuration
store of the GUI-only engine: final store content, the pre-write full-file backup
and its timestamp, whether readback verification passed, and the failure
category when it did not. -/
structure ConfigStoreWrite where
  finalStore : String
  backup : String
  backupTimestamp : Nat
  verified : Bool
  failure : Option FailureCategory
deriving DecidableEq, Repr

/-- Modelled from the spec: the guarded configuration-store write of
section 4.5 of the specification (the Vantage adapter is not among the
shipped sources; src/README.md lines 68 to 72 document the timestamped
backup).  A timestamped full-file backup of the store is taken before the
write; then the new content is written and read back.  When the readback
equals the intended content the write is verified; otherwise the store is
restored from the backup and the External-State-Risk category is
reported. -/
def guardedWrite (store newContent readback : String) (timestamp : Nat) : ConfigStoreWrite :=
  let backup := store
  if readback = newContent then
    { finalStore := newContent, backup := backup, backupTimestamp := timestamp,
      verified := true, failure := none }
  else
    { finalStore := backup, backup := backup, backupTimestamp := timestamp,
      verified := false, failure := some FailureCategory.externalStateRisk }

/-- Modelled from the spec: the job-level effect of a guarded
configuration-store write: an unverified write fails the job, a verified
write leaves it alone. -/
def vantageWriteJob (j : Job) (store newContent readback : String) (ts : Nat) : Job :=
  let w := guardedWrite store newContent readback ts
  if w.verified then j
  else { j with status := Status.failed,
                errorMessage := "configuration store write verification failed" }

/-- Progress snapshot the scripted (Marmoset) adapter reports after one
completed render unit. -/
structure UnitSnapshot where
  unitsCompleted : Nat
  totalUnits : Nat
  totalProgress : ℚ
  currentFrame : Nat
  currentPass : String
deriving DecidableEq, Repr

/-- Modelled from the spec: the snapshot after render unit k (zero-based)
of a scripted-engine run over the frame-major unit order of section 4.4 of
the specification and src/unnamed/part_004 lines 302 to 312: unit k renders
frame k / passCount with pass k mod passCount, after which units_completed
is k + 1 and progress is exactly units_completed / total_units. -/
def unitSnapshot (frameCount : Nat) (passes : List String) (k : Nat) : UnitSnapshot :=
  { unitsCompleted := k + 1,
    totalUnits := frameCount * passes.length,
    totalProgress := ((k : ℚ) + 1) / ((frameCount * passes.length : Nat) : ℚ),
    currentFrame := k / passes.length,
    currentPass := passes.getD (k % passes.length) "" }

/-- Modelled from the spec: a full scripted-engine run (section 4.4 of the
specification; wain/engines/marmoset.py is not among the shipped sources):
start computes total_units = frame_count times selected_pass_count and
drives exactly that many render units, reporting one snapshot after each
completed unit. -/
def scriptedRun (frameCount : Nat) (passes : List String) : List UnitSnapshot :=
  (List.range (frameCount * passes.length)).map (unitSnapshot frameCount passes)

/-! ### Sample values used by the witnesses -/

/-- A sample job record with the given status. -/
def sampleJob (st : Status) : Job :=
  { id := 1, priority := 2, order := 0, status := st, totalProgress := 40,
    currentFrame := 6, unitsCompleted := 12, errorMessage := "scene error" }

/-- A sample submission request. -/
def sampleRequest : SubmitRequest :=
  { id := 7, priority := 1, currentFrame := 0, submitPaused := false }

/-- A splash state past the 25 second safety timeout. -/
def sampleSplash : SplashState :=
  { winfoExists := true, appDetected := false, progress := 0,
    targetProgress := 0, elapsed := 26 }

/-- A control search predicate whose target never appears. -/
def neverFind : Nat → Bool := fun _ => false

/-- An underlying control-tree search that blocks for a very long time. -/
def slowSearch : Nat → Nat := fun _ => 1000000

/-- A sample search policy: 3 attempts of at most 10 seconds under a
30 second wall clock. -/
def samplePolicy : SearchPolicy :=
  { attemptBudget := 3, perAttemptDeadline := 10000, wallClockDeadline := 30000 }

/-- A sample selected-pass list for the scripted engine. -/
def twoPasses : List String := [ "diffuse", "normals" ]

/-! ### Theorems for the claims -/

/-- C10: find_wain_window is total (a Lean function) and never raises: it
returns false whenever sys.platform is not win32, false whenever the
Windows API call raises, and otherwise the truthiness hwnd != 0 of the
returned handle. -/
theorem C10_find_wain_window_total (platform : String) (apiResult : Option Int) :
    (platform ≠ "win32" → find_wain_window platform apiResult = false) ∧
    (apiResult = none → find_wain_window platform apiResult = false) ∧
    (∀ hwnd : Int, platform = "win32" → apiResult = some hwnd →
      find_wain_window platform apiResult = (hwnd != 0)) := by
  refine ⟨fun h => ?_, fun h => ?_, fun hwnd hp ha => ?_⟩
  · simp [find_wain_window, h]
  · subst h
    unfold find_wain_window
    split <;> rfl
  · subst ha
    simp [find_wain_window, hp]

/-- Witness for C10 at concrete platforms and API outcomes. -/
theorem C10_witness :
    find_wain_window "linux" (some 5) = false ∧
    find_wain_window "win32" none = false ∧
    find_wain_window "win32" (some 7) = (7 != 0) :=
  ⟨(C10_find_wain_window_total "linux" (some 5)).1 (by decide),
   (C10_find_wain_window_total "win32" none).2.1 rfl,
   (C10_find_wain_window_total "win32" (some 7)).2.2 7 rfl rfl⟩

/-- Auxiliary: once the app_launched flag is set, further launch_app
invocations change nothing. -/
theorem launchIter_of_launched (n : Nat) (s : LaunchState) (h : s.appLaunched = true) :
    launchIter n s = s := by
  induction n with
  | zero => rfl
  | succ n ih => simp [launchIter, launch_app, h, ih]

/-- C9: launch_app spawns the subprocess at most once across all
invocations: every call leaves the app_launched flag set, a call with the
flag already set is the identity, launch_app is idempotent, and any number
of invocations from the initial launcher state spawns at most one
process. -/
theorem C9_launch_app_at_most_once (s : LaunchState) (n : Nat) :
    (launch_app s).appLaunched = true ∧
    (s.appLaunched = true → launch_app s = s) ∧
    launch_app (launch_app s) = launch_app s ∧
    (launchIter n initialLaunchState).spawnCount ≤ 1 := by
  refine ⟨?_, fun h => ?_, ?_, ?_⟩
  · by_cases h : s.appLaunched <;> simp [launch_app, h]
  · simp [launch_app, h]
  · by_cases h : s.appLaunched <;> simp [launch_app, h]
  · cases n with
    | zero => exact Nat.zero_le 1
    | succ n =>
        have hs : launch_app initialLaunchState =
            { appLaunched := true, spawnCount := 1 } := rfl
        have : launchIter (n + 1) initialLaunchState =
            { appLaunched := true, spawnCount := 1 } := by
          show launchIter n (launch_app initialLaunchState) = _
          rw [hs, launchIter_of_launched n _ rfl]
        rw [this]

/-- Witness for C9 at a concrete launched state and three invocations. -/
theorem C9_witness :
    launch_app { appLaunched := true, spawnCount := 5 } =
      { appLaunched := true, spawnCount := 5 } ∧
    (launchIter 3 initialLaunchState).spawnCount ≤ 1 :=
  ⟨(C9_launch_app_at_most_once { appLaunched := true, spawnCount := 5 } 3).2.1 rfl,
   (C9_launch_app_at_most_once { appLaunched := true, spawnCount := 5 } 3).2.2.2⟩

/-- C8: every simulate_progress invocation with elapsed over 25 seconds
schedules no further simulate_progress call, and when the splash window
still exists it destroys it, immediately via the safety timeout or via the
already scheduled 300 ms destroy of the detected branch, so the polling
chain never extends past the safety timeout, app window detected or
not. -/
theorem C8_simulate_progress_safety_timeout (s : SplashState) (h : 25 < s.elapsed) :
    (∀ d, (simulate_progress s).2 ≠ SplashAction.scheduleNext d) ∧
    (s.winfoExists = true →
      (simulate_progress s).2 = SplashAction.destroyNow ∨
      (simulate_progress s).2 = SplashAction.scheduleDestroy 300) := by
  unfold simulate_progress
  split_ifs with h1 h2
  · exact ⟨fun d hc => by simp at hc,
      fun ht => by rw [h1] at ht; exact absurd ht (by simp)⟩
  · exact ⟨fun d hc => by simp at hc, fun _ => Or.inr rfl⟩
  · exact ⟨fun d hc => by simp at hc, fun _ => Or.inl rfl⟩

/-- Witness for C8 at a concrete splash state 26 seconds in. -/
theorem C8_witness :
    (25 : ℚ) < sampleSplash.elapsed ∧
    ((simulate_progress sampleSplash).2 = SplashAction.destroyNow ∨
      (simulate_progress sampleSplash).2 = SplashAction.scheduleDestroy 300) :=
  ⟨by decide, (C8_simulate_progress_safety_timeout sampleSplash (by decide)).2 rfl⟩

/-- C2: a progress update on the active job keeps the persisted
total_progress in range and non-decreasing: the new value is at least the
old one, stays at most 100, and a report that is smaller than the persisted
value after clamping leaves the persisted value unchanged. -/
theorem C2_progress_clamped_monotone (j : Job) (reported : Int)
    (h : j.totalProgress ≤ 100) :
    j.totalProgress ≤ (applyOutcome (AdapterOutcome.running reported) j).totalProgress ∧
    (applyOutcome (AdapterOutcome.running reported) j).totalProgress ≤ 100 ∧
    (clampProgress reported ≤ j.totalProgress →
      (applyOutcome (AdapterOutcome.running reported) j).totalProgress = j.totalProgress) := by
  have hc : clampProgress reported ≤ 100 := by
    unfold clampProgress
    rw [Int.toNat_le]
    exact min_le_left _ _
  refine ⟨?_, ?_, fun hle => ?_⟩
  · exact le_max_left _ _
  · exact max_le h hc
  · exact max_eq_left hle

/-- Witness for C2: an out-of-range report of 150 and a stale report of 10
against a persisted 40. -/
theorem C2_witness :
    (sampleJob Status.rendering).totalProgress ≤
      (applyOutcome (AdapterOutcome.running 150) (sampleJob Status.rendering)).totalProgress ∧
    (applyOutcome (AdapterOutcome.running 150) (sampleJob Status.rendering)).totalProgress ≤ 100 ∧
    (applyOutcome (AdapterOutcome.running 10) (sampleJob Status.rendering)).totalProgress =
      (sampleJob Status.rendering).totalProgress :=
  ⟨(C2_progress_clamped_monotone (sampleJob Status.rendering) 150 (by decide)).1,
   (C2_progress_clamped_monotone (sampleJob Status.rendering) 150 (by decide)).2.1,
   (C2_progress_clamped_monotone (sampleJob Status.rendering) 10 (by decide)).2.2 (by decide)⟩

/-- C4: cold-start loading demotes every persisted Rendering job to Paused
with all other fields kept, loads every other job unchanged, never yields a
Rendering job, and acts elementwise on the persisted list. -/
theorem C4_cold_start_demotes_rendering (p : List Job) (j : Job) (i : Nat) :
    (loadJobs p)[i]? = Option.map loadJob p[i]? ∧
    (j.status = Status.rendering → loadJob j = { j with status := Status.paused }) ∧
    (j.status ≠ Status.rendering → loadJob j = j) ∧
    (loadJob j).status ≠ Status.rendering := by
  refine ⟨?_, fun h => ?_, fun h => ?_, ?_⟩
  · simp [loadJobs]
  · simp [loadJob, h]
  · simp [loadJob, h]
  · unfold loadJob
    split_ifs with h
    · show Status.paused ≠ Status.rendering
      decide
    · exact h

/-- Witness for C4 at a concrete persisted Rendering job and a concrete
Queued job. -/
theorem C4_witness :
    (loadJobs [ sampleJob Status.rendering ])[0]? =
      Option.map loadJob [ sampleJob Status.rendering ][0]? ∧
    loadJob (sampleJob Status.rendering) =
      { sampleJob Status.rendering with status := Status.paused } ∧
    loadJob (sampleJob Status.queued) = sampleJob Status.queued :=
  ⟨(C4_cold_start_demotes_rendering [ sampleJob Status.rendering ]
      (sampleJob Status.rendering) 0).1,
   (C4_cold_start_demotes_rendering [] (sampleJob Status.rendering) 0).2.1 rfl,
   (C4_cold_start_demotes_rendering [] (sampleJob Status.queued) 0).2.2.1 (by decide)⟩

/-- C5: retrying a Failed job sets its status to Queued and clears the
error message while preserving current_frame, units_completed, and every
other field. -/
theorem C5_retry_resets_error_only (j : Job) (h : j.status = Status.failed) :
    (retryJob j).status = Status.queued ∧
    (retryJob j).errorMessage = "" ∧
    (retryJob j).currentFrame = j.currentFrame ∧
    (retryJob j).unitsCompleted = j.unitsCompleted ∧
    (retryJob j).totalProgress = j.totalProgress ∧
    (retryJob j).id = j.id ∧
    (retryJob j).priority = j.priority ∧
    (retryJob j).order = j.order := by
  simp [retryJob, h]

/-- Witness for C5 at a concrete Failed job. -/
theorem C5_witness :
    (retryJob (sampleJob Status.failed)).status = Status.queued ∧
    (retryJob (sampleJob Status.failed)).errorMessage = "" ∧
    (retryJob (sampleJob Status.failed)).currentFrame =
      (sampleJob Status.failed).currentFrame ∧
    (retryJob (sampleJob Status.failed)).unitsCompleted =
      (sampleJob Status.failed).unitsCompleted :=
  ⟨(C5_retry_resets_error_only (sampleJob Status.failed) rfl).1,
   (C5_retry_resets_error_only (sampleJob Status.failed) rfl).2.1,
   (C5_retry_resets_error_only (sampleJob Status.failed) rfl).2.2.1,
   (C5_retry_resets_error_only (sampleJob Status.failed) rfl).2.2.2.1⟩

/-- C6: every guarded configuration-store write records the full pre-write
store as its timestamped backup; when readback verification fails the store
is restored to equal that backup, the External-State-Risk category is
reported, and the job is Failed; when verification passes the store holds
the new content and the job is untouched. -/
theorem C6_guarded_write_backup_restore (j : Job)
    (store newContent readback : String) (ts : Nat) :
    (guardedWrite store newContent readback ts).backup = store ∧
    (guardedWrite store newContent readback ts).backupTimestamp = ts ∧
    (readback ≠ newContent →
      (guardedWrite store newContent readback ts).finalStore = store ∧
      (guardedWrite store newContent readback ts).verified = false ∧
      (guardedWrite store newContent readback ts).failure =
        some FailureCategory.externalStateRisk ∧
      (vantageWriteJob j store newContent readback ts).status = Status.failed) ∧
    (readback = newContent →
      (guardedWrite store newContent readback ts).finalStore = newContent ∧
      vantageWriteJob j store newContent readback ts = j) := by
  by_cases h : readback = newContent
  · refine ⟨?_, ?_, fun hc => absurd h hc, fun _ => ⟨?_, ?_⟩⟩ <;>
      simp [guardedWrite, vantageWriteJob, h]
  · refine ⟨?_, ?_, fun _ => ⟨?_, ?_, ?_, ?_⟩, fun hc => absurd hc h⟩ <;>
      simp [guardedWrite, vantageWriteJob, h]

/-- Witness for C6 at a concrete failed readback. -/
theorem C6_witness :
    (guardedWrite "samples=100" "samples=64" "samples=100" 20240101).backup =
      "samples=100" ∧
    (guardedWrite "samples=100" "samples=64" "samples=100" 20240101).finalStore =
      "samples=100" ∧
    (guardedWrite "samples=100" "samples=64" "samples=100" 20240101).failure =
      some FailureCategory.externalStateRisk ∧
    (vantageWriteJob (sampleJob Status.rendering)
      "samples=100" "samples=64" "samples=100" 20240101).status = Status.failed :=
  ⟨(C6_guarded_write_backup_restore (sampleJob Status.rendering)
      "samples=100" "samples=64" "samples=100" 20240101).1,
   ((C6_guarded_write_backup_restore (sampleJob Status.rendering)
      "samples=100" "samples=64" "samples=100" 20240101).2.2.1 (by decide)).1,
   ((C6_guarded_write_backup_restore (sampleJob Status.rendering)
      "samples=100" "samples=64" "samples=100" 20240101).2.2.1 (by decide)).2.2.1,
   ((C6_guarded_write_backup_restore (sampleJob Status.rendering)
      "samples=100" "samples=64" "samples=100" 20240101).2.2.1 (by decide)).2.2.2⟩

/-- Auxiliary: when the target never appears, the supervised search loop
ends fatally and the elapsed model time grows by at most one per-attempt
deadline per remaining attempt, regardless of how long the underlying
searches block. -/
theorem searchLoop_never_finds (find : Nat → Bool) (dur : Nat → Nat)
    (pol : SearchPolicy) (h : ∀ i, find i = false) :
    ∀ (fuel elapsed i : Nat), ∃ e,
      searchLoop find dur pol fuel elapsed i = SearchResult.fatal controlNotFoundMsg e ∧
      e ≤ elapsed + fuel * pol.perAttemptDeadline := by
  intro fuel
  induction fuel with
  | zero =>
      intro elapsed i
      exact ⟨elapsed, rfl, Nat.le_add_right _ _⟩
  | succ fuel ih =>
      intro elapsed i
      unfold searchLoop
      by_cases hw : pol.wallClockDeadline ≤ elapsed
      · rw [if_pos hw]
        exact ⟨elapsed, rfl, Nat.le_add_right _ _⟩
      · rw [if_neg hw]
        simp only [h i, Bool.false_and, Bool.false_eq_true, if_false]
        obtain ⟨e, he, hb⟩ := ih (elapsed + min (dur i) pol.perAttemptDeadline) (i + 1)
        refine ⟨e, he, ?_⟩
        have hmin : min (dur i) pol.perAttemptDeadline ≤ pol.perAttemptDeadline :=
          min_le_right _ _
        have hmul : (fuel + 1) * pol.perAttemptDeadline =
            fuel * pol.perAttemptDeadline + pol.perAttemptDeadline :=
          Nat.succ_mul _ _
        omega

/-- C3: a control search whose target never appears fails fatally with the
render-control-not-found message within the attempt budget: the elapsed
model time is bounded by attemptBudget times perAttemptDeadline no matter
how long each underlying search blocks (so the scheduler never hangs), the
declared wall-clock deadline is respected whenever the budget is configured
within it, and folding the result into the job record makes the job
Failed. -/
theorem C3_control_search_bounded_failure (find : Nat → Bool) (dur : Nat → Nat)
    (pol : SearchPolicy) (h : ∀ i, find i = false) :
    ∃ e, controlSearch find dur pol = SearchResult.fatal controlNotFoundMsg e ∧
      e ≤ pol.attemptBudget * pol.perAttemptDeadline ∧
      (pol.attemptBudget * pol.perAttemptDeadline ≤ pol.wallClockDeadline →
        e ≤ pol.wallClockDeadline) ∧
      ∀ j : Job, (searchFailJob j (controlSearch find dur pol)).status = Status.failed := by
  obtain ⟨e, he, hb⟩ := searchLoop_never_finds find dur pol h pol.attemptBudget 0 0
  have he' : controlSearch find dur pol = SearchResult.fatal controlNotFoundMsg e := he
  have hb' : e ≤ pol.attemptBudget * pol.perAttemptDeadline := by
    simpa using hb
  refine ⟨e, he', hb', fun hw => le_trans hb' hw, fun j => ?_⟩
  rw [he']
  rfl

/-- Witness for C3: a never-matching search against million-millisecond
blocking calls under the sample 3-attempt, 10 s, 30 s policy. -/
theorem C3_witness :
    ∃ e, controlSearch neverFind slowSearch samplePolicy =
        SearchResult.fatal controlNotFoundMsg e ∧
      e ≤ samplePolicy.attemptBudget * samplePolicy.perAttemptDeadline ∧
      (samplePolicy.attemptBudget * samplePolicy.perAttemptDeadline ≤
          samplePolicy.wallClockDeadline →
        e ≤ samplePolicy.wallClockDeadline) ∧
      ∀ j : Job,
        (searchFailJob j (controlSearch neverFind slowSearch samplePolicy)).status =
          Status.failed :=
  C3_control_search_bounded_failure neverFind slowSearch samplePolicy (fun _ => rfl)

/-- Auxiliary: the snapshot at position k of a scripted run. -/
theorem scriptedRun_getElem (fc : Nat) (ps : List String) (k : Nat)
    (h : k < fc * ps.length) :
    (scriptedRun fc ps)[k]? = some (unitSnapshot fc ps k) := by
  unfold scriptedRun
  rw [List.getElem?_map, List.getElem?_range h]
  rfl

/-- Auxiliary: the length of a scripted run. -/
theorem scriptedRun_length (fc : Nat) (ps : List String) :
    (scriptedRun fc ps).length = fc * ps.length := by
  simp [scriptedRun]

/-- C7: a scripted-engine run over frame_count frames and the selected
passes drives exactly total_units = frame_count times pass_count units;
after unit k the snapshot reports units_completed = k + 1, the exact
progress (k + 1) / total_units, and the frame and pass of that unit in
frame-major order; and the reported progress is strictly monotone along the
run. -/
theorem C7_scripted_exact_progress (fc : Nat) (ps : List String) :
    (scriptedRun fc ps).length = fc * ps.length ∧
    (∀ k, k < fc * ps.length →
      (scriptedRun fc ps)[k]? = some
        { unitsCompleted := k + 1,
          totalUnits := fc * ps.length,
          totalProgress := ((k : ℚ) + 1) / ((fc * ps.length : Nat) : ℚ),
          currentFrame := k / ps.length,
          currentPass := ps.getD (k % ps.length) "" }) ∧
    (∀ (a b : Nat) (sa sb : UnitSnapshot), a < b →
      (scriptedRun fc ps)[a]? = some sa →
      (scriptedRun fc ps)[b]? = some sb →
      sa.totalProgress < sb.totalProgress) := by
  refine ⟨scriptedRun_length fc ps, fun k hk => scriptedRun_getElem fc ps k hk, ?_⟩
  intro a b sa sb hab ha hb
  have hbl : b < fc * ps.length := by
    by_contra hc
    push_neg at hc
    have hnone : (scriptedRun fc ps)[b]? = none :=
      List.getElem?_eq_none (by rw [scriptedRun_length]; exact hc)
    rw [hnone] at hb
    cases hb
  have hal : a < fc * ps.length := lt_trans hab hbl
  rw [scriptedRun_getElem fc ps a hal] at ha
  rw [scriptedRun_getElem fc ps b hbl] at hb
  have hsa : sa = unitSnapshot fc ps a := (Option.some.inj ha).symm
  have hsb : sb = unitSnapshot fc ps b := (Option.some.inj hb).symm
  subst hsa
  subst hsb
  show ((a : ℚ) + 1) / ((fc * ps.length : Nat) : ℚ) <
    ((b : ℚ) + 1) / ((fc * ps.length : Nat) : ℚ)
  have hT : (0 : ℚ) < ((fc * ps.length : Nat) : ℚ) := by
    exact_mod_cast lt_of_le_of_lt (Nat.zero_le b) hbl
  have hx : ((a : ℚ) + 1) < ((b : ℚ) + 1) := by
    exact_mod_cast Nat.succ_lt_succ hab
  exact (div_lt_div_iff_of_pos_right hT).mpr hx

/-- Witness for C7: two frames with two selected passes, inspected after
the third unit. -/
theorem C7_witness :
    (scriptedRun 2 twoPasses).length = 2 * twoPasses.length ∧
    (scriptedRun 2 twoPasses)[2]? = some
      { unitsCompleted := 3,
        totalUnits := 2 * twoPasses.length,
        totalProgress := ((2 : ℚ) + 1) / ((2 * twoPasses.length : Nat) : ℚ),
        currentFrame := 2 / twoPasses.length,
        currentPass := twoPasses.getD (2 % twoPasses.length) "" } :=
  ⟨(C7_scripted_exact_progress 2 twoPasses).1,
   (C7_scripted_exact_progress 2 twoPasses).2.1 2 (by decide)⟩

/-- Auxiliary: countRendering over a cons cell. -/
theorem countRendering_cons (j : Job) (s : List Job) :
    countRendering (j :: s) =
      (if j.status.isRendering then 1 else 0) + countRendering s := by
  by_cases h : j.status.isRendering <;>
    simp [countRendering, List.filter_cons, h, Nat.add_comm]

/-- Auxiliary: countRendering over an append. -/
theorem countRendering_append (s t : List Job) :
    countRendering (s ++ t) = countRendering s + countRendering t := by
  simp [countRendering, List.filter_append]

/-- Auxiliary: updating one job with a function that never introduces the
Rendering status cannot increase the number of Rendering jobs. -/
theorem countRendering_updateAt_le (s : List Job) (i : Nat) (f : Job → Job)
    (hf : ∀ j, (f j).status.isRendering = true → j.status.isRendering = true) :
    countRendering (updateAt s i f) ≤ countRendering s := by
  induction s generalizing i with
  | nil => exact le_refl _
  | cons j rest ih =>
      cases i with
      | zero =>
          rw [show updateAt (j :: rest) 0 f = f j :: rest from rfl,
            countRendering_cons, countRendering_cons]
          by_cases h : (f j).status.isRendering
          · rw [if_pos h, if_pos (hf j h)]
          · rw [if_neg h]
            split_ifs <;> omega
      | succ n =>
          rw [show updateAt (j :: rest) (n + 1) f = j :: updateAt rest n f from rfl,
            countRendering_cons, countRendering_cons]
          have := ih n
          omega

/-- Auxiliary: updating one job can increase the number of Rendering jobs
by at most one. -/
theorem countRendering_updateAt_le_succ (s : List Job) (i : Nat) (f : Job → Job) :
    countRendering (updateAt s i f) ≤ countRendering s + 1 := by
  induction s generalizing i with
  | nil => exact Nat.le_add_right _ _
  | cons j rest ih =>
      cases i with
      | zero =>
          rw [show updateAt (j :: rest) 0 f = f j :: rest from rfl,
            countRendering_cons, countRendering_cons]
          split_ifs <;> omega
      | succ n =>
          rw [show updateAt (j :: rest) (n + 1) f = j :: updateAt rest n f from rfl,
            countRendering_cons, countRendering_cons]
          have := ih n
          omega

/-- Auxiliary: removing a job cannot increase the number of Rendering
jobs. -/
theorem countRendering_removeAt_le (s : List Job) (i : Nat) :
    countRendering (removeAt s i) ≤ countRendering s := by
  induction s generalizing i with
  | nil => exact le_refl _
  | cons j rest ih =>
      cases i with
      | zero =>
          rw [show removeAt (j :: rest) 0 = rest from rfl, countRendering_cons]
          split_ifs <;> omega
      | succ n =>
          rw [show removeAt (j :: rest) (n + 1) = j :: removeAt rest n from rfl,
            countRendering_cons, countRendering_cons]
          have := ih n
          omega

/-- Auxiliary: folding an adapter poll into the active job cannot increase
the number of Rendering jobs. -/
theorem countRendering_tickActive_le (s : List Job) (o : AdapterOutcome) :
    countRendering (tickActive s o) ≤ countRendering s := by
  induction s with
  | nil => exact le_refl _
  | cons j rest ih =>
      by_cases h : j.status.isRendering
      · rw [show tickActive (j :: rest) o =
            (if j.status.isRendering then applyOutcome o j :: rest
             else j :: tickActive rest o) from rfl,
          if_pos h, countRendering_cons, countRendering_cons, if_pos h]
        split_ifs <;> omega
      · rw [show tickActive (j :: rest) o =
            (if j.status.isRendering then applyOutcome o j :: rest
             else j :: tickActive rest o) from rfl,
          if_neg h, countRendering_cons, countRendering_cons]
        omega

/-- Auxiliary: a loaded job is never Rendering, so a cold start begins with
zero Rendering jobs. -/
theorem countRendering_loadJobs (p : List Job) : countRendering (loadJobs p) = 0 := by
  induction p with
  | nil => rfl
  | cons j rest ih =>
      rw [show loadJobs (j :: rest) = loadJob j :: loadJobs rest from rfl,
        countRendering_cons, ih]
      have h0 : (loadJob j).status.isRendering = false := by
        unfold loadJob
        split_ifs with h
        · rfl
        · cases hs : j.status
          · rfl
          · exact absurd hs h
          · rfl
          · rfl
          · rfl
      rw [h0]
      rfl

/-- Auxiliary: submission appends a Queued or Paused job and leaves the
number of Rendering jobs unchanged. -/
theorem countRendering_submitOp (s : List Job) (r : SubmitRequest) :
    countRendering (submitOp s r) = countRendering s := by
  unfold submitOp
  rw [countRendering_append]
  by_cases hp : r.submitPaused <;>
    simp [countRendering, List.filter_cons, hp, Status.isRendering]

/-- Auxiliary: a pause-style demotion never introduces the Rendering
status. -/
theorem demote_safe :
    ∀ j : Job,
      (((if j.status = Status.rendering then { j with status := Status.paused }
         else j) : Job)).status.isRendering = true →
      j.status.isRendering = true := by
  intro j hj
  by_cases hr : j.status = Status.rendering
  · rw [hr]
    rfl
  · rw [if_neg hr] at hj
    exact hj

/-- Auxiliary: retrying never introduces the Rendering status. -/
theorem retry_safe :
    ∀ j : Job, (retryJob j).status.isRendering = true → j.status.isRendering = true := by
  intro j hj
  unfold retryJob at hj
  by_cases hr : j.status = Status.failed
  · rw [if_pos hr] at hj
    cases hj
  · rw [if_neg hr] at hj
    exact hj

/-- C1: every state of the job queue reachable from a cold start through
submit, start, pause, resume, stop, delete, retry and tick has at most one
job in the Rendering status. -/
theorem C1_at_most_one_rendering (s : List Job) (h : Reachable s) :
    countRendering s ≤ 1 := by
  induction h with
  | load p =>
      rw [countRendering_loadJobs]
      exact Nat.zero_le 1
  | submit s r _ ih =>
      rw [countRendering_submitOp]
      exact ih
  | start s i _ ih =>
      unfold startOp
      split_ifs with h0
      · have := countRendering_updateAt_le_succ s i
          (fun j => if j.status = Status.queued ∨ j.status = Status.paused then
            { j with status := Status.rendering } else j)
        omega
      · exact ih
  | pause s i _ ih =>
      exact le_trans (countRendering_updateAt_le s i _ demote_safe) ih
  | resume s i _ ih =>
      unfold resumeOp
      split_ifs with h0
      · have := countRendering_updateAt_le_succ s i
          (fun j => if j.status = Status.paused then
            { j with status := Status.rendering } else j)
        omega
      · exact ih
  | stop s i _ ih =>
      exact le_trans (countRendering_updateAt_le s i _ demote_safe) ih
  | delete s i _ ih =>
      exact le_trans (countRendering_removeAt_le s i) ih
  | retry s i _ ih =>
      exact le_trans (countRendering_updateAt_le s i _ retry_safe) ih
  | tick s o _ ih =>
      unfold tickOp
      split_ifs with h0
      · cases hq : nextQueuedIdx s with
        | none => simpa [hq] using ih
        | some i =>
            change countRendering (updateAt s i
              (fun j => if j.status = Status.queued then
                { j with status := Status.rendering } else j)) ≤ 1
            have := countRendering_updateAt_le_succ s i
              (fun j => if j.status = Status.queued then
                { j with status := Status.rendering } else j)
            omega
      · exact le_trans (countRendering_tickActive_le s o) ih

/-- Witness for C1: a cold start, one submission and one scheduler tick. -/
theorem C1_witness :
    countRendering
      (tickOp (submitOp (loadJobs []) sampleRequest) (AdapterOutcome.running 50)) ≤ 1 :=
  C1_at_most_one_rendering _
    (Reachable.tick _ _ (Reachable.submit _ _ (Reachable.load [])))

end RenderManager
